import Mathlib

/-!
Verification of the LAS (Linux App Store) repository against its
natural-language specification.

The development shallowly embeds the relevant parts of `src/las.py` and
`src/core/password_dialog.py`:

* the privileged-operation workers `do_install`, `do_uninstall` and
  `do_update_all` together with their dispatchers `install_package`,
  `uninstall_package` and `update_all_packages` (las.py lines 877-1002),
  including the Python name-resolution step that makes the uninstall
  dispatcher fail on the undefined name `Threads`;
* the catalog search `search_packages` (las.py lines 756-802) and the
  search handlers `on_search` / `on_search_changed` (lines 1046-1089);
* the featured-apps catalog worker `load_featured` (las.py lines 476-503);
* `PasswordDialog.clear_password` (password_dialog.py lines 50-51);
* the credential-prompt flow and the progress reflector, which the spec
  describes but whose driving code is absent from `src/` (no caller of
  `PasswordDialog` exists there); these are modelled from the spec.

Python exceptions are embedded as an explicit error type, machine-level
effects (spawned subprocesses, UI-marshalled notices) as explicit lists.
-/

namespace LAS

/-- Python exception classes that can arise in the embedded code.  Every
constructor models a subclass of `Exception` (classes outside `Exception`,
such as `SystemExit`, do not occur in the embedded paths). -/
inductive PyExc
  | calledProcessError (stderr : String)
  | osError
  | fileNotFoundError
  | nameError (missing : String)
  | otherException
  deriving DecidableEq, Repr

/-- Whether an exception is `subprocess.CalledProcessError`, the one class
matched by the `except` clause of the install/uninstall/update workers. -/
def isCalledProcessError : PyExc → Bool
  | PyExc.calledProcessError _ => true
  | _ => false

/-- Result of one `subprocess.run` call: either the process completed with
an exit code and captured stdout/stderr, or the call itself raised. -/
inductive RunResult
  | completed (exitCode : Nat) (stdout : String) (stderr : String)
  | raised (e : PyExc)

/-- The host environment a worker runs against: whether `shutil.which`
finds `pkexec`, and the behaviour of `subprocess.run` per argument vector. -/
structure Env where
  pkexecPresent : Bool
  run : List String → RunResult

/-- A UI notice marshalled onto the main loop via `GLib.idle_add`. -/
inductive UINotice
  | installSuccess (pkg : String)
  | installError (pkg : String) (msg : String)
  | uninstallSuccess (pkg : String)
  | uninstallError (pkg : String) (msg : String)
  | updateSuccess
  | updateError (msg : String)
  | populateFeatured (apps : List (String × String × Bool × Bool)) (emptyMsg : String)
  deriving DecidableEq, Repr

/-- Observable outcome of one background worker: the subprocess argument
vectors it attempted, the UI notices it marshalled, and the exception that
escaped the worker uncaught, if any. -/
structure WorkerRun where
  procs : List (List String)
  ui : List UINotice
  escaped : Option PyExc
  deriving Repr

/-- Argument vector of the install subprocess (las.py line 886). -/
def installArgv (pkg : String) : List String :=
  ["pkexec", "apt", "install", "-y", pkg]

/-- Argument vector of the uninstall subprocess (las.py line 934). -/
def removeArgv (pkg : String) : List String :=
  ["pkexec", "apt", "remove", "-y", pkg]

/-- Argument vector of the first update-all subprocess (las.py line 985). -/
def aptUpdateArgv : List String := ["pkexec", "apt", "update"]

/-- Argument vector of the second update-all subprocess (las.py line 992). -/
def aptUpgradeArgv : List String := ["pkexec", "apt", "upgrade", "-y"]

/-- The error text used when `pkexec` is absent (las.py lines 883, 932, 981). -/
def pkexecMissingMsg : String := "pkexec not found. Please install policykit-1."

/-- `subprocess.run(argv, check=True, capture_output=True, text=True)`:
a nonzero exit raises `CalledProcessError` carrying the captured stderr;
a failure to spawn raises directly. -/
def runChecked (env : Env) (argv : List String) : Except PyExc (String × String) :=
  match env.run argv with
  | RunResult.completed exitCode out err =>
      if exitCode = 0 then Except.ok (out, err)
      else Except.error (PyExc.calledProcessError err)
  | RunResult.raised e => Except.error e

/-- Embedding of the worker `do_install` (las.py lines 880-894).  The `try`
block matches only `subprocess.CalledProcessError`; any other exception
escapes the worker. -/
def do_install (env : Env) (pkg : String) : WorkerRun :=
  if env.pkexecPresent then
    match runChecked env (installArgv pkg) with
    | Except.ok _ =>
        { procs := [installArgv pkg], ui := [UINotice.installSuccess pkg], escaped := none }
    | Except.error (PyExc.calledProcessError stderr) =>
        { procs := [installArgv pkg],
          ui := [UINotice.installError pkg ("Installation failed: " ++ stderr)],
          escaped := none }
    | Except.error e =>
        { procs := [installArgv pkg], ui := [], escaped := some e }
  else
    { procs := [], ui := [UINotice.installError pkg pkexecMissingMsg], escaped := none }

/-- Embedding of the worker `do_uninstall` (las.py lines 929-943); same shape
as `do_install` with the remove argument vector and messages. -/
def do_uninstall (env : Env) (pkg : String) : WorkerRun :=
  if env.pkexecPresent then
    match runChecked env (removeArgv pkg) with
    | Except.ok _ =>
        { procs := [removeArgv pkg], ui := [UINotice.uninstallSuccess pkg], escaped := none }
    | Except.error (PyExc.calledProcessError stderr) =>
        { procs := [removeArgv pkg],
          ui := [UINotice.uninstallError pkg ("Uninstallation failed: " ++ stderr)],
          escaped := none }
    | Except.error e =>
        { procs := [removeArgv pkg], ui := [], escaped := some e }
  else
    { procs := [], ui := [UINotice.uninstallError pkg pkexecMissingMsg], escaped := none }

/-- Embedding of the worker `do_update_all` (las.py lines 978-1000): two
sequential subprocesses under one `try` matching only `CalledProcessError`. -/
def do_update_all (env : Env) : WorkerRun :=
  if env.pkexecPresent then
    match runChecked env aptUpdateArgv with
    | Except.error (PyExc.calledProcessError stderr) =>
        { procs := [aptUpdateArgv],
          ui := [UINotice.updateError ("Update failed: " ++ stderr)], escaped := none }
    | Except.error e =>
        { procs := [aptUpdateArgv], ui := [], escaped := some e }
    | Except.ok _ =>
        match runChecked env aptUpgradeArgv with
        | Except.ok _ =>
            { procs := [aptUpdateArgv, aptUpgradeArgv], ui := [UINotice.updateSuccess],
              escaped := none }
        | Except.error (PyExc.calledProcessError stderr) =>
            { procs := [aptUpdateArgv, aptUpgradeArgv],
              ui := [UINotice.updateError ("Update failed: " ++ stderr)], escaped := none }
        | Except.error e =>
            { procs := [aptUpdateArgv, aptUpgradeArgv], ui := [], escaped := some e }
  else
    { procs := [], ui := [UINotice.updateError pkexecMissingMsg], escaped := none }

/-- The names bound at module level in las.py: the imports of lines 3-14 and
the module-level bindings of lines 17-1107.  `Threads` is not among them. -/
def lasModuleNames : List String :=
  ["gi", "Gtk", "Pango", "Gdk", "GLib", "GdkPixbuf", "apt", "os", "configparser",
   "re", "subprocess", "platform", "shutil", "logging", "Thread", "Lock",
   "apt_lock", "ICON_ALIASES", "APP_CATEGORIES", "FEATURED_APPS",
   "get_icon_for_package", "load_icon_async", "get_package_info",
   "PackageInfoDialog", "LASWindow", "main"]

/-- Representative Python builtins reachable from las.py; `Threads` is not a
builtin either. -/
def pyBuiltinNames : List String :=
  ["print", "len", "str", "int", "set", "open", "range", "hasattr",
   "Exception", "BaseException", "PermissionError"]

/-- Python name resolution as seen from a method body of `LASWindow`:
a name resolves iff it is a local, a module-level global, or a builtin. -/
def resolvesName (localNames : List String) (n : String) : Bool :=
  localNames.contains n || lasModuleNames.contains n || pyBuiltinNames.contains n

/-- Embedding of `install_package` (las.py lines 877-896): defines the worker,
then dispatches it through the name `Thread`.  The dispatch line evaluates the
name before any worker starts; an unresolved name raises `NameError`. -/
def install_package (env : Env) (pkg : String) : Except PyExc WorkerRun :=
  if resolvesName ["self", "package_name", "do_install"] "Thread" then
    Except.ok (do_install env pkg)
  else
    Except.error (PyExc.nameError "Thread")

/-- Embedding of `uninstall_package` (las.py lines 926-945): identical shape,
but line 945 dispatches the worker through the name `Threads`. -/
def uninstall_package (env : Env) (pkg : String) : Except PyExc WorkerRun :=
  if resolvesName ["self", "package_name", "do_uninstall"] "Threads" then
    Except.ok (do_uninstall env pkg)
  else
    Except.error (PyExc.nameError "Threads")

/-- Embedding of `update_all_packages` (las.py lines 975-1002): dispatches
its worker through the name `Thread` (line 1002). -/
def update_all_packages (env : Env) : Except PyExc WorkerRun :=
  if resolvesName ["self", "widget", "do_update_all"] "Thread" then
    Except.ok (do_update_all env)
  else
    Except.error (PyExc.nameError "Thread")

/-- One version entry of a package in the apt cache.  Python treats an empty
or missing description as falsy, which the embedding renders as `""`. -/
structure PkgVersion where
  description : String
  deriving DecidableEq, Repr

/-- One package record of the apt cache, as read by the catalog code:
name, version list, installed flag. -/
structure PackageRecord where
  name : String
  versions : List PkgVersion
  isInstalled : Bool
  deriving DecidableEq, Repr

/-- Python `str.strip()`: drop whitespace from both ends.  Implemented over
the character list so that it evaluates by kernel reduction. -/
def pyStrip (s : String) : String :=
  String.mk (((s.data.dropWhile Char.isWhitespace).reverse.dropWhile Char.isWhitespace).reverse)

/-- Python `str.lower()` on ASCII text. -/
def pyLower (s : String) : String :=
  String.mk (s.data.map Char.toLower)

/-- Python `s.endswith(suffix)`. -/
def strEndsWith (s suffix : String) : Bool :=
  suffix.data.isSuffixOf s.data

/-- Python `s.startswith(pre)`. -/
def strStartsWith (s pre : String) : Bool :=
  pre.data.isPrefixOf s.data

/-- Drop the last `n` characters of `s`. -/
def strDropRight (s : String) (n : Nat) : String :=
  String.mk (s.data.take (s.data.length - n))

/-- Take the first `n` characters of `s`, Python `s[:n]`. -/
def strTake (s : String) (n : Nat) : String :=
  String.mk (s.data.take n)

/-- Python `s.replace(old, new)` for single characters. -/
def strReplaceChar (s : String) (old new : Char) : String :=
  String.mk (s.data.map (fun c => if c = old then new else c))

/-- Split a character list at every space, Python `s.split(' ')`. -/
def splitAtSpaces : List Char → List Char → List (List Char)
  | [], acc => [acc.reverse]
  | c :: rest, acc =>
      if c = ' ' then acc.reverse :: splitAtSpaces rest []
      else splitAtSpaces rest (c :: acc)

/-- `s.rsplit(' ', 1)[0]`: everything before the last space of `s`, or `s`
itself when it has no space. -/
def rsplitHead (s : String) : String :=
  match splitAtSpaces s.data [] with
  | [] => s
  | parts =>
      if parts.length = 1 then s
      else String.mk (List.intercalate [' '] parts.dropLast)

/-- The description summary computed repeatedly in las.py (for example lines
790-796): first version's description, defaulted when absent, truncated at
120 characters at a word boundary, newlines flattened otherwise. -/
def summarizeDescription (versions : List PkgVersion) : String :=
  match versions with
  | [] => "No description available"
  | v :: _ =>
      let full := if v.description = "" then "No description available" else v.description
      if full.data.length > 120 then rsplitHead (strTake full 120) ++ "..."
      else strReplaceChar full '\n' ' '

/-- A character of the class `[\w\s.-]` used by the query guard regex of
`search_packages` (las.py line 759), on ASCII text. -/
def queryCharAllowed (c : Char) : Bool :=
  c.isAlphanum || c = '_' || c.isWhitespace || c = '.' || c = '-'

/-- `re.match` of `^[\w\s.-]*$` against the query: every character allowed. -/
def queryRegexOk (q : String) : Bool :=
  q.data.all queryCharAllowed

/-- Is `needle` a contiguous substring of the character list?  Models the
Python `in` operator on strings; the empty needle always occurs. -/
def charsContain (needle : List Char) : List Char → Bool
  | [] => needle.isEmpty
  | c :: rest => needle.isPrefixOf (c :: rest) || charsContain needle rest

/-- Python `needle in hay` for strings. -/
def strContains (hay needle : String) : Bool :=
  charsContain needle.data hay.data

/-- The query match of las.py line 786: substring of the lowered name, or
prefix of it. -/
def queryMatches (query pkgName : String) : Bool :=
  strContains (pyLower pkgName) (pyLower query) ||
    strStartsWith (pyLower pkgName) (pyLower query)

/-- The native apt architecture derived from `platform.machine()`
(las.py lines 772-773): only `x86_64` is mapped, to `amd64`. -/
def native_arch (systemArch : String) : String :=
  if systemArch = "x86_64" then "amd64" else systemArch

/-- `re.sub(r'(:amd64|:i386)$', '', name)` (las.py line 781): drop a trailing
`:amd64` or `:i386` architecture suffix. -/
def stripArchSuffix (name : String) : String :=
  if strEndsWith name ":amd64" then strDropRight name 6
  else if strEndsWith name ":i386" then strDropRight name 5
  else name

/-- The architecture preference of las.py line 788: the name carries the
native suffix, or carries no `:amd64`/`:i386` suffix at all. -/
def prefersNative (name arch : String) : Bool :=
  strEndsWith name (":" ++ arch) ||
    !(strEndsWith name ":amd64" || strEndsWith name ":i386")

/-- The package loop of `search_packages` (las.py lines 776-797): skip base
names already seen; on a query match, keep the record only under the
architecture preference, remembering its base name. -/
def searchLoop (query arch : String) : List PackageRecord → List String → List (String × String × Bool)
  | [], _ => []
  | p :: rest, seen =>
      if stripArchSuffix p.name ∈ seen then
        searchLoop query arch rest seen
      else if queryMatches query p.name then
        if prefersNative p.name arch then
          (p.name, summarizeDescription p.versions, p.isInstalled) ::
            searchLoop query arch rest (stripArchSuffix p.name :: seen)
        else
          searchLoop query arch rest seen
      else
        searchLoop query arch rest seen

/-- Result of `search_packages`: the returned rows, and whether the package
cache was consulted at all. -/
structure SearchOutcome where
  results : List (String × String × Bool)
  cacheConsulted : Bool
  deriving DecidableEq, Repr

/-- Embedding of `search_packages` (las.py lines 756-802).  The guard of line
759 rejects empty or non-`[\w\s.-]` queries before any cache access; the
`try` block catches every `Exception` and returns the empty list; an empty
cache also yields the empty list. -/
def search_packages (query systemArch : String)
    (cacheResult : Except PyExc (List PackageRecord)) : SearchOutcome :=
  if query = "" then
    { results := [], cacheConsulted := false }
  else if queryRegexOk query = false then
    { results := [], cacheConsulted := false }
  else
    match cacheResult with
    | Except.error _ => { results := [], cacheConsulted := true }
    | Except.ok cache =>
        if cache.length = 0 then { results := [], cacheConsulted := true }
        else
          { results := searchLoop query (native_arch systemArch) cache [],
            cacheConsulted := true }

/-- The view the browse area ends up in after a search handler runs. -/
inductive ViewAction
  | showHome
  | searchResults (query : String)
  deriving DecidableEq, Repr

/-- Embedding of `on_search` (las.py lines 1056-1089): strip and lower the
entry text; an empty query shows the home view, otherwise the search view. -/
def on_search (entryText : String) : ViewAction :=
  if pyLower (pyStrip entryText) = "" then ViewAction.showHome
  else ViewAction.searchResults (pyLower (pyStrip entryText))

/-- Embedding of `on_search_changed` (las.py lines 1046-1054): returns whether
a debounced search timeout is scheduled, which happens only for a nonempty
stripped query. -/
def on_search_changed (entryText : String) : Bool :=
  pyStrip entryText ≠ ""

/-- The featured app list of las.py lines 51-54. -/
def FEATURED_APPS : List String :=
  ["firefox", "vlc", "gimp", "libreoffice", "code", "obs-studio",
   "audacity", "thunderbird", "steam", "discord"]

/-- Embedding of the catalog worker `load_featured` (las.py lines 476-503):
its whole body sits in a `try` whose `except Exception` marshals a fallback
populate call; the success path marshals the featured rows.  The quote marks
around `sudo apt update` in the source's empty-cache message are elided. -/
def load_featured (cacheResult : Except PyExc (List PackageRecord)) : WorkerRun :=
  match cacheResult with
  | Except.error _ =>
      { procs := [], ui := [UINotice.populateFeatured [] "Error loading featured apps."],
        escaped := none }
  | Except.ok cache =>
      { procs := [],
        ui := [UINotice.populateFeatured
          (FEATURED_APPS.filterMap (fun n =>
            match cache.find? (fun p => p.name == n) with
            | some p => some (n, summarizeDescription p.versions, p.isInstalled, true)
            | none => none))
          "No featured apps available. Try running sudo apt update."],
        escaped := none }

/-- The masked entry widget of `PasswordDialog` (password_dialog.py line 21). -/
structure EntryWidget where
  text : String
  deriving DecidableEq, Repr

/-- Embedding of `PasswordDialog.clear_password` (password_dialog.py lines
50-51): set the entry text to the empty string. -/
def clear_password (e : EntryWidget) : EntryWidget :=
  { e with text := "" }

/-- Phase of the credential-prompt flow. -/
inductive CredPhase
  | running
  | succeeded
  | lockedOut
  | cancelled
  deriving DecidableEq, Repr

/-- State of the credential-prompt flow: attempt counter, phase, number of
lockout notices fired so far, and the dialog's entry widget. -/
structure CredState where
  attempts : Nat
  phase : CredPhase
  lockoutNotices : Nat
  entry : EntryWidget
  deriving DecidableEq, Repr

/-- The fixed maximum number of credential attempts (spec section 3). -/
def credMaxAttempts : Nat := 3

/-- Initial state of the credential flow: counter at 0, running, no lockout
notice fired, empty entry. -/
def credInit : CredState :=
  { attempts := 0, phase := CredPhase.running, lockoutNotices := 0,
    entry := { text := "" } }

/-- An event of the credential flow: a submitted secret that the privilege
probe accepts or rejects, or an explicit cancellation. -/
inductive CredEvent
  | submitAccepted (pw : String)
  | submitRejected (pw : String)
  | cancel
  deriving DecidableEq, Repr

/-- Modelled from the spec: the credential-prompt flow (spec sections 3 and
4.1).  The code driving `PasswordDialog` is absent from `src/` (nothing in
las.py references the dialog), so the step function follows the spec's words:
an accepted secret ends the flow successfully; a rejected secret increments
the attempt counter and clears the input field via `clear_password`, and on
reaching the fixed maximum the flow fires one lockout notice and terminates;
cancellation terminates the flow; terminated flows ignore further events. -/
def credStep (s : CredState) (e : CredEvent) : CredState :=
  match s.phase, e with
  | CredPhase.running, CredEvent.submitAccepted _ =>
      { s with phase := CredPhase.succeeded }
  | CredPhase.running, CredEvent.submitRejected _ =>
      if s.attempts + 1 = credMaxAttempts then
        { s with attempts := s.attempts + 1, entry := clear_password s.entry,
                 phase := CredPhase.lockedOut,
                 lockoutNotices := s.lockoutNotices + 1 }
      else
        { s with attempts := s.attempts + 1, entry := clear_password s.entry }
  | CredPhase.running, CredEvent.cancel =>
      { s with phase := CredPhase.cancelled }
  | _, _ => s

/-- Run the credential flow from the initial state over a list of events. -/
def credRun (evs : List CredEvent) : CredState :=
  evs.foldl credStep credInit

/-- State of the progress reflector: current fraction, whether the external
completion flag has been observed, whether the reflector is done, and how
many times the completion callback fired. -/
structure ProgState where
  value : ℚ
  flagSeen : Bool
  done : Bool
  callbacks : Nat
  deriving DecidableEq, Repr

/-- The soft ceiling the progress value may not exceed while the underlying
task is incomplete (spec sections 3 and 4.3). -/
def progCeiling : ℚ := 4 / 5

/-- Modelled from the spec: one tick of the progress reflector (spec section
4.3).  No reflector code exists under `src/`; the step follows the spec's
words: while the completion flag is unseen the value advances by the fixed
increment but is capped at the soft ceiling; once the flag is observed the
value advances toward 1, and on reaching 1 the reflector stops and fires the
completion callback. -/
def progTick (inc : ℚ) (flag : Bool) (s : ProgState) : ProgState :=
  if s.done then s
  else if s.flagSeen || flag then
    if s.value + inc < 1 then
      { s with value := s.value + inc, flagSeen := true }
    else
      { value := 1, flagSeen := true, done := true, callbacks := s.callbacks + 1 }
  else
    if s.value + inc ≤ progCeiling then { s with value := s.value + inc }
    else { s with value := progCeiling }

/-- Initial state of the progress reflector. -/
def progInit : ProgState :=
  { value := 0, flagSeen := false, done := false, callbacks := 0 }

/-- Run the reflector over a list of per-tick observations of the external
completion flag. -/
def progRun (inc : ℚ) (flags : List Bool) : ProgState :=
  flags.foldl (fun s f => progTick inc f s) progInit

/-- Modelled from the spec: the fixed lock-contention message the spec says
is reported when the captured output contains the lock marker (spec sections
4.2 and 8).  No such message exists anywhere in `src/`; the definition exists
to compare the spec's words against the embedded code. -/
def lockContentionMessage : String := "another manager is using the resource"

/-- A realistic captured stderr of apt while the dpkg lock is held. -/
def lockStderr : String :=
  "E: Could not get lock /var/lib/dpkg/lock-frontend. It is held by process 1234"

/-- Host with pkexec present where every privileged command exits nonzero
with the lock-held stderr. -/
def envLockHeld : Env :=
  { pkexecPresent := true, run := fun _ => RunResult.completed 100 "" lockStderr }

/-- Host with pkexec present where every privileged command call raises
`OSError` instead of completing. -/
def envOSError : Env :=
  { pkexecPresent := true, run := fun _ => RunResult.raised PyExc.osError }

/-- Host without pkexec. -/
def envNoPkexec : Env :=
  { pkexecPresent := false, run := fun _ => RunResult.raised PyExc.fileNotFoundError }

/-- A two-record cache holding both architecture variants of vlc, the
non-native one listed first. -/
def demoCache : List PackageRecord :=
  [{ name := "vlc:i386", versions := [], isInstalled := false },
   { name := "vlc:amd64", versions := [], isInstalled := true }]

/-- C1: for every environment and package name, `uninstall_package` fails to
resolve the name `Threads` at its dispatch line and raises `NameError`
before any background worker starts or any subprocess is spawned; no
`WorkerRun` is ever produced on this path. -/
theorem uninstall_dispatch_raises_nameError (env : Env) (pkg : String) :
    uninstall_package env pkg = Except.error (PyExc.nameError "Threads") := rfl

/-- C2, counterexample: on a host where the install subprocess exits nonzero
with stderr containing the substring `Could not get lock`, the reported
failure message is the generic `Installation failed:` text carrying the raw
stderr, not the spec's fixed lock-contention message. -/
theorem lock_output_reported_generically :
    strContains lockStderr "Could not get lock" = true ∧
    (do_install envLockHeld "vlc").ui =
      [UINotice.installError "vlc" ("Installation failed: " ++ lockStderr)] ∧
    ("Installation failed: " ++ lockStderr) ≠ lockContentionMessage := by
  refine ⟨rfl, rfl, ?_⟩
  decide

/-- C2, amended: for every privileged install or update-all invocation whose
subprocess completes with a nonzero exit code — whether it is the install
subprocess, the first update-all subprocess (`apt update`) or the second one
(`apt upgrade -y`) after the first succeeded — the reported message is the
fixed generic prefix followed by the captured stderr verbatim, regardless of
the stderr's content; no lock-contention special case exists. -/
theorem failure_message_is_generic :
    (∀ (env : Env) (pkg out err : String) (code : Nat),
      env.pkexecPresent = true →
      env.run (installArgv pkg) = RunResult.completed code out err →
      code ≠ 0 →
      (do_install env pkg).ui =
        [UINotice.installError pkg ("Installation failed: " ++ err)]) ∧
    (∀ (env : Env) (out err : String) (code : Nat),
      env.pkexecPresent = true →
      env.run aptUpdateArgv = RunResult.completed code out err →
      code ≠ 0 →
      (do_update_all env).ui =
        [UINotice.updateError ("Update failed: " ++ err)]) ∧
    (∀ (env : Env) (out1 err1 out2 err2 : String) (code : Nat),
      env.pkexecPresent = true →
      env.run aptUpdateArgv = RunResult.completed 0 out1 err1 →
      env.run aptUpgradeArgv = RunResult.completed code out2 err2 →
      code ≠ 0 →
      (do_update_all env).ui =
        [UINotice.updateError ("Update failed: " ++ err2)]) := by
  refine ⟨?_, ?_, ?_⟩
  · intro env pkg out err code hp hr hc
    simp [do_install, runChecked, hp, hr, hc]
  · intro env out err code hp hr hc
    simp [do_update_all, runChecked, hp, hr, hc]
  · intro env out1 err1 out2 err2 code hp h1 h2 hc
    simp [do_update_all, runChecked, hp, h1, h2, hc]

/-- C2, witness for the amended theorem at the concrete lock-held host. -/
theorem failure_message_is_generic_witness :
    (do_install envLockHeld "vlc").ui =
      [UINotice.installError "vlc" ("Installation failed: " ++ lockStderr)] :=
  failure_message_is_generic.1 envLockHeld "vlc" "" lockStderr 100 rfl rfl (by decide)

/-- C3, counterexample: an `OSError` raised by the install subprocess call is
not caught at the worker boundary — it escapes the worker uncaught, and no
error notice is marshalled onto the UI thread. -/
theorem install_worker_exception_escapes :
    (do_install envOSError "vlc").escaped = some PyExc.osError ∧
    (do_install envOSError "vlc").ui = [] := ⟨rfl, rfl⟩

/-- C3, amended: the install and update-all workers catch only
`subprocess.CalledProcessError` — a `CalledProcessError` raised by either of
their subprocess calls is converted into a UI-marshalled error notice, while
any other exception class raised by either subprocess call (for update-all:
the `apt update` call, or the `apt upgrade -y` call after `apt update`
succeeded) escapes the worker uncaught with no notice; the catalog worker
`load_featured`, whose body is wrapped in `except Exception`, never lets an
exception escape; the uninstall worker is never started at all. -/
theorem worker_exception_boundary :
    (∀ (env : Env) (pkg : String) (e : PyExc),
      env.pkexecPresent = true →
      env.run (installArgv pkg) = RunResult.raised e →
      isCalledProcessError e = false →
      (do_install env pkg).escaped = some e ∧ (do_install env pkg).ui = []) ∧
    (∀ (env : Env) (pkg stderr : String),
      env.pkexecPresent = true →
      env.run (installArgv pkg) = RunResult.raised (PyExc.calledProcessError stderr) →
      (do_install env pkg).escaped = none ∧
      (do_install env pkg).ui =
        [UINotice.installError pkg ("Installation failed: " ++ stderr)]) ∧
    (∀ (env : Env) (e : PyExc),
      env.pkexecPresent = true →
      env.run aptUpdateArgv = RunResult.raised e →
      isCalledProcessError e = false →
      (do_update_all env).escaped = some e ∧ (do_update_all env).ui = []) ∧
    (∀ (env : Env) (stderr : String),
      env.pkexecPresent = true →
      env.run aptUpdateArgv = RunResult.raised (PyExc.calledProcessError stderr) →
      (do_update_all env).escaped = none ∧
      (do_update_all env).ui =
        [UINotice.updateError ("Update failed: " ++ stderr)]) ∧
    (∀ (env : Env) (out1 err1 : String) (e : PyExc),
      env.pkexecPresent = true →
      env.run aptUpdateArgv = RunResult.completed 0 out1 err1 →
      env.run aptUpgradeArgv = RunResult.raised e →
      isCalledProcessError e = false →
      (do_update_all env).escaped = some e ∧ (do_update_all env).ui = []) ∧
    (∀ (env : Env) (out1 err1 stderr : String),
      env.pkexecPresent = true →
      env.run aptUpdateArgv = RunResult.completed 0 out1 err1 →
      env.run aptUpgradeArgv = RunResult.raised (PyExc.calledProcessError stderr) →
      (do_update_all env).escaped = none ∧
      (do_update_all env).ui =
        [UINotice.updateError ("Update failed: " ++ stderr)]) ∧
    (∀ cacheResult, (load_featured cacheResult).escaped = none) := by
  refine ⟨?_, ?_, ?_, ?_, ?_, ?_, ?_⟩
  · intro env pkg e hp hr he
    cases e <;> simp_all [do_install, runChecked, isCalledProcessError]
  · intro env pkg stderr hp hr
    simp [do_install, runChecked, hp, hr]
  · intro env e hp hr he
    cases e <;> simp_all [do_update_all, runChecked, isCalledProcessError]
  · intro env stderr hp hr
    simp [do_update_all, runChecked, hp, hr]
  · intro env out1 err1 e hp h1 h2 he
    cases e <;> simp_all [do_update_all, runChecked, isCalledProcessError]
  · intro env out1 err1 stderr hp h1 h2
    simp [do_update_all, runChecked, hp, h1, h2]
  · intro cacheResult
    cases cacheResult <;> rfl

/-- C3, witness for the amended theorem at the concrete `OSError` host. -/
theorem worker_exception_boundary_witness :
    (do_install envOSError "vlc").escaped = some PyExc.osError :=
  (worker_exception_boundary.1 envOSError "vlc" PyExc.osError rfl rfl (by decide)).1

/-- C5, counterexample: on a host without pkexec, an uninstall request raises
`NameError` at the dispatch line — the worker containing the pkexec check
never starts, so no error notice about the missing helper is ever reported
to the user on the uninstall path. -/
theorem uninstall_no_pkexec_error_reported :
    envNoPkexec.pkexecPresent = false ∧
    uninstall_package envNoPkexec "vlc" = Except.error (PyExc.nameError "Threads") :=
  ⟨rfl, rfl⟩

/-- C5, amended: for install and update-all requests, absence of pkexec makes
the worker report the fixed missing-helper notice immediately, attempt no
subprocess, and let no exception escape; the uninstall worker body contains
the same check, but `uninstall_package` never dispatches it (`NameError` on
the name `Threads`), so no such notice is reported on the uninstall path. -/
theorem pkexec_absent_reported (env : Env) (pkg : String)
    (h : env.pkexecPresent = false) :
    do_install env pkg =
      { procs := [], ui := [UINotice.installError pkg pkexecMissingMsg], escaped := none } ∧
    do_update_all env =
      { procs := [], ui := [UINotice.updateError pkexecMissingMsg], escaped := none } ∧
    do_uninstall env pkg =
      { procs := [], ui := [UINotice.uninstallError pkg pkexecMissingMsg], escaped := none } ∧
    uninstall_package env pkg = Except.error (PyExc.nameError "Threads") := by
  refine ⟨?_, ?_, ?_, rfl⟩ <;> simp [do_install, do_update_all, do_uninstall, h]

/-- C5, witness for the amended theorem at the concrete pkexec-less host. -/
theorem pkexec_absent_reported_witness :
    do_install envNoPkexec "vlc" =
      { procs := [], ui := [UINotice.installError "vlc" pkexecMissingMsg], escaped := none } :=
  (pkexec_absent_reported envNoPkexec "vlc" rfl).1

/-- C4: a search submission whose entry text strips to the empty string
resets the browse view to the home view — `on_search` yields `showHome`, not
a search-results view — and `on_search_changed` schedules no debounced
search for it. -/
theorem empty_query_shows_home (s : String) (h : pyStrip s = "") :
    on_search s = ViewAction.showHome ∧ on_search_changed s = false := by
  constructor
  · unfold on_search
    rw [h]
    rfl
  · unfold on_search_changed
    rw [h]
    simp

/-- C4, witness at a whitespace-only entry text. -/
theorem empty_query_shows_home_witness :
    on_search "   " = ViewAction.showHome ∧ on_search_changed "   " = false :=
  empty_query_shows_home "   " (by decide)

/-- C10: a query that is empty, or contains any character outside the class
of word characters, whitespace, `.` and `-`, makes `search_packages` return
the empty result list without consulting the package cache. -/
theorem invalid_query_returns_nothing (q sysArch : String)
    (cacheResult : Except PyExc (List PackageRecord))
    (h : q = "" ∨ ∃ c ∈ q.data, queryCharAllowed c = false) :
    search_packages q sysArch cacheResult = { results := [], cacheConsulted := false } := by
  rcases h with h | ⟨c, hc, hbad⟩
  · simp [search_packages, h]
  · have hq : q ≠ "" := by
      intro he
      rw [he] at hc
      simp at hc
    have hreg : queryRegexOk q = false := by
      unfold queryRegexOk
      rw [List.all_eq_false]
      exact ⟨c, hc, by simp [hbad]⟩
    simp [search_packages, hq, hreg]

/-- C10, witness at the query `g++`. -/
theorem invalid_query_returns_nothing_witness :
    search_packages "g++" "x86_64" (Except.ok demoCache) =
      { results := [], cacheConsulted := false } :=
  invalid_query_returns_nothing "g++" "x86_64" (Except.ok demoCache)
    (Or.inr ⟨'+', by decide, by decide⟩)

/-- Every row the search loop emits passed the architecture preference. -/
theorem searchLoop_mem_prefersNative (q a : String) :
    ∀ (ps : List PackageRecord) (seen : List String) (r : String × String × Bool),
      r ∈ searchLoop q a ps seen → prefersNative r.1 a = true := by
  intro ps
  induction ps with
  | nil =>
      intro seen r hr
      simp [searchLoop] at hr
  | cons p rest ih =>
      intro seen r hr
      unfold searchLoop at hr
      by_cases h1 : stripArchSuffix p.name ∈ seen
      · rw [if_pos h1] at hr
        exact ih seen r hr
      · rw [if_neg h1] at hr
        by_cases h2 : queryMatches q p.name = true
        · rw [if_pos h2] at hr
          by_cases h3 : prefersNative p.name a = true
          · rw [if_pos h3] at hr
            rcases List.mem_cons.mp hr with heq | hmem
            · rw [heq]
              exact h3
            · exact ih _ r hmem
          · rw [if_neg h3] at hr
            exact ih seen r hr
        · rw [if_neg h2] at hr
          exact ih seen r hr

/-- The base names of the rows the search loop emits are pairwise distinct,
and none of them was in the incoming `seen` set. -/
theorem searchLoop_base_nodup (q a : String) :
    ∀ (ps : List PackageRecord) (seen : List String),
      ((searchLoop q a ps seen).map (fun r => stripArchSuffix r.1)).Nodup ∧
      ∀ r ∈ searchLoop q a ps seen, stripArchSuffix r.1 ∉ seen := by
  intro ps
  induction ps with
  | nil =>
      intro seen
      refine ⟨by simp [searchLoop], ?_⟩
      intro r hr
      simp [searchLoop] at hr
  | cons p rest ih =>
      intro seen
      unfold searchLoop
      by_cases h1 : stripArchSuffix p.name ∈ seen
      · rw [if_pos h1]
        exact ih seen
      · rw [if_neg h1]
        by_cases h2 : queryMatches q p.name = true
        · rw [if_pos h2]
          by_cases h3 : prefersNative p.name a = true
          · rw [if_pos h3]
            obtain ⟨ihn, ihs⟩ := ih (stripArchSuffix p.name :: seen)
            constructor
            · rw [List.map_cons]
              refine List.Nodup.cons ?_ ihn
              intro hmem
              rcases List.mem_map.mp hmem with ⟨r, hr, hfr⟩
              exact ihs r hr (hfr ▸ List.mem_cons_self _ _)
            · intro r hr
              rcases List.mem_cons.mp hr with heq | hmem
              · rw [heq]
                exact h1
              · intro hs
                exact ihs r hmem (List.mem_cons_of_mem _ hs)
          · rw [if_neg h3]
            exact ih seen
        · rw [if_neg h2]
          exact ih seen

/-- The result list of `search_packages` is either empty or the search loop
run over a cache delivered by the `Except.ok` branch. -/
theorem search_results_cases (q sysArch : String)
    (cacheResult : Except PyExc (List PackageRecord)) :
    (search_packages q sysArch cacheResult).results = [] ∨
    ∃ cache, cacheResult = Except.ok cache ∧
      (search_packages q sysArch cacheResult).results =
        searchLoop q (native_arch sysArch) cache [] := by
  by_cases h0 : q = ""
  · left; simp [search_packages, h0]
  · by_cases h1 : queryRegexOk q = false
    · left; simp [search_packages, h0, h1]
    · rcases cacheResult with e | cache
      · left; simp [search_packages, h0, h1]
      · by_cases h2 : cache.length = 0
        · left; simp [search_packages, h0, h1, h2]
        · right
          exact ⟨cache, rfl, by simp [search_packages, h0, h1, h2]⟩

/-- C6: for every query, system architecture and cache, the result list of
`search_packages` contains at most one entry per base package name (the name
with a trailing `:amd64` or `:i386` suffix removed), and any returned entry
that carries such an architecture suffix carries the native one — so when
multi-architecture variants of a package exist, only the variant matching
the native system architecture can be returned. -/
theorem search_dedup_prefers_native (q sysArch : String)
    (cacheResult : Except PyExc (List PackageRecord)) :
    (((search_packages q sysArch cacheResult).results.map
        (fun r => stripArchSuffix r.1)).Nodup) ∧
    (∀ r ∈ (search_packages q sysArch cacheResult).results,
      (strEndsWith r.1 ":amd64" || strEndsWith r.1 ":i386") = true →
      strEndsWith r.1 (":" ++ native_arch sysArch) = true) := by
  rcases search_results_cases q sysArch cacheResult with h | ⟨cache, hcr, h⟩
  · rw [h]
    exact ⟨List.nodup_nil, by intro r hr; simp at hr⟩
  · rw [h]
    refine ⟨(searchLoop_base_nodup q (native_arch sysArch) cache []).1, ?_⟩
    intro r hr hsuffix
    have hp := searchLoop_mem_prefersNative q (native_arch sysArch) cache [] r hr
    unfold prefersNative at hp
    simp only [Bool.or_eq_true] at hp
    rcases hp with hnat | hnone
    · exact hnat
    · rw [hsuffix] at hnone
      simp at hnone

/-- C6, witness: over the two-variant demo cache with the non-native variant
listed first, the native `vlc:amd64` row is the one returned. -/
theorem search_dedup_prefers_native_witness :
    (search_packages "vlc" "x86_64" (Except.ok demoCache)).results =
      [("vlc:amd64", "No description available", true)] ∧
    strEndsWith "vlc:amd64" (":" ++ native_arch "x86_64") = true := by
  refine ⟨by decide, ?_⟩
  exact (search_dedup_prefers_native "vlc" "x86_64" (Except.ok demoCache)).2
    ("vlc:amd64", "No description available", true) (by decide) (by decide)

/-- One step of the credential flow preserves the counter/lockout invariant. -/
theorem credStep_preserves_inv (s : CredState) (e : CredEvent)
    (h1 : s.attempts ≤ credMaxAttempts)
    (h2 : s.lockoutNotices = if s.phase = CredPhase.lockedOut then 1 else 0)
    (h3 : s.phase = CredPhase.lockedOut ↔ s.attempts = credMaxAttempts) :
    (credStep s e).attempts ≤ credMaxAttempts ∧
    (credStep s e).lockoutNotices =
      (if (credStep s e).phase = CredPhase.lockedOut then 1 else 0) ∧
    ((credStep s e).phase = CredPhase.lockedOut ↔
      (credStep s e).attempts = credMaxAttempts) := by
  obtain ⟨a, ph, n, en⟩ := s
  simp only at h1 h2 h3
  cases ph <;> cases e <;>
    simp_all [credStep, credMaxAttempts] <;>
    (try split) <;> simp_all <;> omega

/-- The counter/lockout invariant holds along any fold of the flow. -/
theorem credFoldl_inv (evs : List CredEvent) (s : CredState)
    (h1 : s.attempts ≤ credMaxAttempts)
    (h2 : s.lockoutNotices = if s.phase = CredPhase.lockedOut then 1 else 0)
    (h3 : s.phase = CredPhase.lockedOut ↔ s.attempts = credMaxAttempts) :
    (evs.foldl credStep s).attempts ≤ credMaxAttempts ∧
    (evs.foldl credStep s).lockoutNotices =
      (if (evs.foldl credStep s).phase = CredPhase.lockedOut then 1 else 0) ∧
    ((evs.foldl credStep s).phase = CredPhase.lockedOut ↔
      (evs.foldl credStep s).attempts = credMaxAttempts) := by
  induction evs generalizing s with
  | nil => exact ⟨h1, h2, h3⟩
  | cons e rest ih =>
      simp only [List.foldl_cons]
      obtain ⟨g1, g2, g3⟩ := credStep_preserves_inv s e h1 h2 h3
      exact ih (credStep s e) g1 g2 g3

/-- C7: over any event sequence of the credential flow, the attempt counter
starts at 0, increments only on a rejected credential and then by exactly 1,
never exceeds the fixed maximum of 3, exactly one lockout notice has fired
when the maximum is reached and none before, and a locked-out flow ignores
every further event. -/
theorem attempt_counter_bounded :
    credInit.attempts = 0 ∧
    (∀ evs, (credRun evs).attempts ≤ credMaxAttempts) ∧
    (∀ evs, (credRun evs).attempts = credMaxAttempts →
      (credRun evs).lockoutNotices = 1 ∧ (credRun evs).phase = CredPhase.lockedOut) ∧
    (∀ evs, (credRun evs).attempts < credMaxAttempts →
      (credRun evs).lockoutNotices = 0) ∧
    (∀ (s : CredState) (e : CredEvent), (credStep s e).attempts ≠ s.attempts →
      (∃ pw, e = CredEvent.submitRejected pw) ∧
      (credStep s e).attempts = s.attempts + 1) ∧
    (∀ (s : CredState) (e : CredEvent), s.phase = CredPhase.lockedOut →
      credStep s e = s) := by
  have base1 : credInit.attempts ≤ credMaxAttempts := by decide
  have base2 : credInit.lockoutNotices =
      (if credInit.phase = CredPhase.lockedOut then 1 else 0) := by decide
  have base3 : credInit.phase = CredPhase.lockedOut ↔
      credInit.attempts = credMaxAttempts := by decide
  refine ⟨rfl, ?_, ?_, ?_, ?_, ?_⟩
  · intro evs
    exact (credFoldl_inv evs credInit base1 base2 base3).1
  · intro evs hmax
    obtain ⟨g1, g2, g3⟩ := credFoldl_inv evs credInit base1 base2 base3
    unfold credRun at hmax ⊢
    have hph := g3.mpr hmax
    rw [g2, if_pos hph]
    exact ⟨rfl, hph⟩
  · intro evs hlt
    obtain ⟨g1, g2, g3⟩ := credFoldl_inv evs credInit base1 base2 base3
    unfold credRun at hlt ⊢
    have hph : ¬((evs.foldl credStep credInit).phase = CredPhase.lockedOut) := by
      intro hp
      rw [g3.mp hp] at hlt
      omega
    rw [g2, if_neg hph]
  · intro s e hne
    obtain ⟨a, ph, n, en⟩ := s
    cases ph <;> cases e <;>
      first
        | (exfalso; exact hne rfl)
        | (refine ⟨⟨_, rfl⟩, ?_⟩
           by_cases hc : a + 1 = credMaxAttempts <;> simp [credStep, hc])
  · intro s e hph
    obtain ⟨a, ph, n, en⟩ := s
    simp only at hph
    subst hph
    cases e <;> rfl

/-- C7, witness: three rejected attempts lock the flow out with exactly one
lockout notice. -/
theorem attempt_counter_bounded_witness :
    (credRun [CredEvent.submitRejected "a", CredEvent.submitRejected "b",
      CredEvent.submitRejected "c"]).lockoutNotices = 1 ∧
    (credRun [CredEvent.submitRejected "a", CredEvent.submitRejected "b",
      CredEvent.submitRejected "c"]).phase = CredPhase.lockedOut :=
  attempt_counter_bounded.2.2.1
    [CredEvent.submitRejected "a", CredEvent.submitRejected "b",
      CredEvent.submitRejected "c"] (by decide)

/-- C9: after any failed credential attempt in a running flow, the password
entry is empty — the step routes it through `clear_password` — and the
attempt counter has incremented by exactly 1. -/
theorem failed_attempt_clears_and_increments (s : CredState) (pw : String)
    (h : s.phase = CredPhase.running) :
    (credStep s (CredEvent.submitRejected pw)).entry.text = "" ∧
    (credStep s (CredEvent.submitRejected pw)).attempts = s.attempts + 1 := by
  obtain ⟨a, ph, n, en⟩ := s
  simp only at h
  subst h
  by_cases hc : a + 1 = credMaxAttempts <;>
    simp [credStep, clear_password, hc]

/-- C9, witness at a running state holding a typed secret. -/
theorem failed_attempt_clears_witness :
    (credStep
        { attempts := 1, phase := CredPhase.running, lockoutNotices := 0,
          entry := { text := "hunter2" } }
        (CredEvent.submitRejected "hunter2")).entry.text = "" ∧
    (credStep
        { attempts := 1, phase := CredPhase.running, lockoutNotices := 0,
          entry := { text := "hunter2" } }
        (CredEvent.submitRejected "hunter2")).attempts = 2 :=
  failed_attempt_clears_and_increments
    { attempts := 1, phase := CredPhase.running, lockoutNotices := 0,
      entry := { text := "hunter2" } } "hunter2" rfl

/-- One reflector tick preserves bounds and never decreases the value. -/
theorem progTick_preserves (inc : ℚ) (f : Bool) (s : ProgState)
    (hinc : 0 ≤ inc) (h0 : 0 ≤ s.value) (h1 : s.value ≤ 1)
    (h2 : s.flagSeen = false → s.value ≤ progCeiling) :
    0 ≤ (progTick inc f s).value ∧ (progTick inc f s).value ≤ 1 ∧
    ((progTick inc f s).flagSeen = false →
      (progTick inc f s).value ≤ progCeiling) ∧
    s.value ≤ (progTick inc f s).value := by
  unfold progTick
  by_cases hd : s.done = true
  · rw [if_pos hd]
    exact ⟨h0, h1, h2, le_refl _⟩
  · rw [if_neg hd]
    by_cases hf : (s.flagSeen || f) = true
    · rw [if_pos hf]
      by_cases hlt : s.value + inc < 1
      · rw [if_pos hlt]
        refine ⟨?_, ?_, ?_, ?_⟩
        · show 0 ≤ s.value + inc
          linarith
        · show s.value + inc ≤ 1
          linarith
        · intro hcon
          simp at hcon
        · show s.value ≤ s.value + inc
          linarith
      · rw [if_neg hlt]
        refine ⟨?_, ?_, ?_, ?_⟩
        · show (0 : ℚ) ≤ 1
          norm_num
        · show (1 : ℚ) ≤ 1
          norm_num
        · intro hcon
          simp at hcon
        · show s.value ≤ 1
          exact h1
    · rw [if_neg hf]
      have hfs : s.flagSeen = false := by
        simp only [Bool.or_eq_true] at hf
        push_neg at hf
        exact Bool.eq_false_iff.mpr hf.1
      have hcap := h2 hfs
      unfold progCeiling at hcap ⊢
      by_cases hle : s.value + inc ≤ 4 / 5
      · rw [if_pos hle]
        refine ⟨?_, ?_, ?_, ?_⟩
        · show 0 ≤ s.value + inc
          linarith
        · show s.value + inc ≤ 1
          linarith
        · intro hcon
          show s.value + inc ≤ 4 / 5
          exact hle
        · show s.value ≤ s.value + inc
          linarith
      · rw [if_neg hle]
        refine ⟨?_, ?_, ?_, ?_⟩
        · show (0 : ℚ) ≤ 4 / 5
          norm_num
        · show (4 : ℚ) / 5 ≤ 1
          norm_num
        · intro hcon
          show (4 : ℚ) / 5 ≤ 4 / 5
          norm_num
        · show s.value ≤ 4 / 5
          exact hcap

/-- The reflector bounds hold along any fold over tick observations. -/
theorem progFoldl_inv (inc : ℚ) (flags : List Bool) (s : ProgState)
    (hinc : 0 ≤ inc) (h0 : 0 ≤ s.value) (h1 : s.value ≤ 1)
    (h2 : s.flagSeen = false → s.value ≤ progCeiling) :
    0 ≤ (flags.foldl (fun t f => progTick inc f t) s).value ∧
    (flags.foldl (fun t f => progTick inc f t) s).value ≤ 1 ∧
    ((flags.foldl (fun t f => progTick inc f t) s).flagSeen = false →
      (flags.foldl (fun t f => progTick inc f t) s).value ≤ progCeiling) := by
  induction flags generalizing s with
  | nil => exact ⟨h0, h1, h2⟩
  | cons f rest ih =>
      simp only [List.foldl_cons]
      obtain ⟨g0, g1, g2, _⟩ := progTick_preserves inc f s hinc h0 h1 h2
      exact ih (progTick inc f s) g0 g1 g2

/-- C8: for any nonnegative fixed increment and any trace of completion-flag
observations, the progress value never decreases at a tick, never exceeds the
soft ceiling of 0.80 while the completion flag is unseen, and can be 1.0 only
once the flag has been observed. -/
theorem progress_monotone_and_capped :
    (∀ (inc : ℚ) (flags : List Bool) (f : Bool), 0 ≤ inc →
      (progRun inc flags).value ≤ (progTick inc f (progRun inc flags)).value) ∧
    (∀ (inc : ℚ) (flags : List Bool), 0 ≤ inc →
      (progRun inc flags).flagSeen = false →
      (progRun inc flags).value ≤ progCeiling) ∧
    (∀ (inc : ℚ) (flags : List Bool), 0 ≤ inc →
      (progRun inc flags).value = 1 → (progRun inc flags).flagSeen = true) := by
  have hbase : ∀ (inc : ℚ) (flags : List Bool), 0 ≤ inc →
      0 ≤ (progRun inc flags).value ∧ (progRun inc flags).value ≤ 1 ∧
      ((progRun inc flags).flagSeen = false →
        (progRun inc flags).value ≤ progCeiling) := by
    intro inc flags hinc
    exact progFoldl_inv inc flags progInit hinc (by norm_num [progInit])
      (by norm_num [progInit]) (fun _ => by norm_num [progCeiling, progInit])
  refine ⟨?_, ?_, ?_⟩
  · intro inc flags f hinc
    obtain ⟨g0, g1, g2⟩ := hbase inc flags hinc
    exact (progTick_preserves inc f (progRun inc flags) hinc g0 g1 g2).2.2.2
  · intro inc flags hinc
    exact (hbase inc flags hinc).2.2
  · intro inc flags hinc hone
    obtain ⟨g0, g1, g2⟩ := hbase inc flags hinc
    cases hfs : (progRun inc flags).flagSeen with
    | true => rfl
    | false =>
        exfalso
        have := g2 hfs
        rw [hone] at this
        unfold progCeiling at this
        linarith

/-- C8, witness before any tick: the value is within the soft ceiling while
the flag is unseen. -/
theorem progress_capped_witness :
    (progRun (1 / 10) []).value ≤ progCeiling :=
  progress_monotone_and_capped.2.1 (1 / 10) [] (by norm_num) rfl

end LAS
